import Mathlib

set_option linter.unusedVariables false

/-!
Shallow embedding of the asynchronous job-processing subsystem of the
Latexy backend (`src/backend/app`): the Redis-backed job lifecycle manager
(`app/core/redis.py`, class `JobStatusManager`), the Celery task executors
and work submitters (`app/workers/*.py`), the WebSocket connection manager
and the public job API routes (`app/api/job_routes.py`), and the
multi-provider LLM client (`app/services/llm_provider_service.py`).

Conventions of the embedding:
- The Redis key-value store is modelled as association lists from job id
  to the stored record, one list per key family (`job_status:`,
  `job_result:`, `job_progress:`).  `setex` is last-write-wins
  replacement; TTL bookkeeping is not observable by any claim and is
  elided.
- Python `dict` result blobs are modelled as structures whose fields are
  the dict keys written by the source; keys that are only written on some
  paths are `Option` fields.
- Exceptions are modelled with `Except String`: an `Except.error` result
  of a task body is an exception propagating out of the Python function
  (e.g. a Celery retry re-raise), and external collaborators are passed
  in as `Except String`-valued outcomes.
- Wall-clock reads (`time.time()`, event-loop time) are passed in as a
  `Nat` parameter.
- Logging calls are elided; usage-statistics bookkeeping in the LLM
  provider service is elided (no claim observes it).
-/

/-- Decidable equality for `Except`, used to evaluate concrete runs. -/
instance exceptDecEq {ε α : Type} [DecidableEq ε] [DecidableEq α] :
    DecidableEq (Except ε α) := fun x y =>
  match x, y with
  | .ok a, .ok b =>
    if h : a = b then isTrue (by rw [h])
    else isFalse (by intro hc; cases hc; exact h rfl)
  | .error a, .error b =>
    if h : a = b then isTrue (by rw [h])
    else isFalse (by intro hc; cases hc; exact h rfl)
  | .ok _, .error _ => isFalse (by intro hc; cases hc)
  | .error _, .ok _ => isFalse (by intro hc; cases hc)

/-- Job status values written by the system
(`job_routes.py` docstring: pending, processing, completed, failed, cancelled). -/
inductive Status
  | pending
  | processing
  | completed
  | failed
  | cancelled
  deriving DecidableEq, Repr

/-- String-keyed metadata mapping attached to a status write
(`metadata` argument of `JobStatusManager.set_job_status`); values are
rendered as strings. -/
abbrev Meta := List (String × String)

/-- The JSON blob stored under `job_status:{job_id}` by
`JobStatusManager.set_job_status`: `{"status", "updated_at", "metadata"}`. -/
structure StatusData where
  status : Status
  updated_at : Nat
  metadata : Meta
  deriving DecidableEq, Repr

/-- The JSON blob stored under `job_progress:{job_id}` by
`JobStatusManager.set_job_progress`: `{"progress", "message", "updated_at"}`. -/
structure ProgressData where
  progress : Nat
  message : Option String
  updated_at : Nat
  deriving DecidableEq, Repr

/-- Result of `latex_service.compile_latex` (a `CompilationResponse`,
`app/models/schemas.py`): the external document-compiler collaborator's
outcome, restricted to the fields the worker reads. -/
structure CompilationResponse where
  success : Bool
  message : String
  pdf_size : Option Nat
  log_output : Option String
  deriving DecidableEq, Repr

/-- The `result_data` dict built by `compile_latex_task`
(`app/workers/latex_worker.py`): fields only written on some paths are
`Option`. -/
structure CompileResult where
  success : Bool
  job_id : String
  task_id : String
  message : String
  compilation_time : Option Nat
  pdf_size : Option Nat
  log_output : Option String
  completed_at : Option Nat
  error : Option String
  deriving DecidableEq, Repr

/-- The dict returned by `optimize_resume_task`
(`app/workers/llm_worker.py`), restricted to the keys
`compile_latex_with_optimization_task` reads via `.get`. -/
structure OptResult where
  success : Bool
  error : Option String
  optimized_latex : Option String
  deriving DecidableEq, Repr

/-- The `combined_result` dict built by
`compile_latex_with_optimization_task` (`app/workers/latex_worker.py`). -/
structure CombinedResult where
  success : Bool
  job_id : String
  task_id : String
  optimization : Option OptResult
  compilation : Option CompileResult
  message : String
  error : Option String
  completed_at : Option Nat
  deriving DecidableEq, Repr

/-- A terminal result blob stored under `job_result:{job_id}` by
`JobStatusManager.set_job_result`. -/
inductive ResultBlob
  | compile (r : CompileResult)
  | combined (r : CombinedResult)
  deriving DecidableEq, Repr

/-- The Redis store state visible to `JobStatusManager`: whether the
global `redis_client` is initialized, and the three key families
(`job_status:*`, `job_result:*`, `job_progress:*`) as association lists
keyed by job id. -/
structure JobStore where
  connected : Bool
  statuses : List (String × StatusData)
  results : List (String × ResultBlob)
  progresses : List (String × ProgressData)
  deriving DecidableEq, Repr

/-- Redis `SET key value` on an association list: replace the binding if
the key is present, else append it. -/
def setKey {α : Type} : List (String × α) → String → α → List (String × α)
  | [], k, v => [(k, v)]
  | (k', v') :: rest, k, v =>
    if k' = k then (k, v) :: rest else (k', v') :: setKey rest k v

/-- Redis `GET key` on an association list. -/
def getKey {α : Type} : List (String × α) → String → Option α
  | [], _ => none
  | (k', v') :: rest, k => if k' = k then some v' else getKey rest k

@[simp] theorem getKey_nil {α : Type} (k : String) : getKey ([] : List (String × α)) k = none := rfl

@[simp] theorem getKey_cons {α : Type} (k' : String) (v' : α) (rest : List (String × α)) (k : String) :
    getKey ((k', v') :: rest) k = if k' = k then some v' else getKey rest k := rfl

theorem getKey_setKey_self {α : Type} (l : List (String × α)) (k : String) (v : α) :
    getKey (setKey l k v) k = some v := by
  induction l with
  | nil => simp [setKey]
  | cons hd tl ih =>
    obtain ⟨k', v'⟩ := hd
    by_cases h : k' = k
    · simp [setKey, h]
    · simp [setKey, h, ih]

theorem getKey_setKey_ne {α : Type} (l : List (String × α)) (k k' : String) (v : α)
    (h : k ≠ k') : getKey (setKey l k v) k' = getKey l k' := by
  induction l with
  | nil => simp [setKey, h]
  | cons hd tl ih =>
    obtain ⟨k0, v0⟩ := hd
    by_cases h0 : k0 = k
    · subst h0; simp [setKey, h]
    · simp [setKey, h0, ih]

/-! ## Job Lifecycle Manager (`JobStatusManager`, `app/core/redis.py`)

Each operation raises `RuntimeError("Redis client not initialized")`
when the global `redis_client` is absent; this is the only failure mode
modelled (`JobStore.connected = false`).  The `write*` functions are the
store mutations performed once the client check has passed. -/

def redisErrMsg : String := "Redis client not initialized"

/-- The `setex` write performed by `set_job_status` after the client
check: overwrite `job_status:{job_id}` with
`{"status": status, "updated_at": t, "metadata": metadata}`. -/
def writeStatus (st : JobStore) (job_id : String) (s : Status) (metadata : Meta) (t : Nat) :
    JobStore :=
  { st with statuses := setKey st.statuses job_id ⟨s, t, metadata⟩ }

/-- The `setex` write performed by `set_job_result` after the client check. -/
def writeResult (st : JobStore) (job_id : String) (blob : ResultBlob) : JobStore :=
  { st with results := setKey st.results job_id blob }

/-- The `setex` write performed by `set_job_progress` after the client check. -/
def writeProgress (st : JobStore) (job_id : String) (p : Nat) (message : Option String)
    (t : Nat) : JobStore :=
  { st with progresses := setKey st.progresses job_id ⟨p, message, t⟩ }

/-- Embeds `JobStatusManager.set_job_status`: raises if the client is not
initialized, else overwrites the status key unconditionally (no
precondition on the previous status). -/
def set_job_status (st : JobStore) (job_id : String) (s : Status) (metadata : Meta)
    (t : Nat) : Except String JobStore :=
  if st.connected then .ok (writeStatus st job_id s metadata t) else .error redisErrMsg

/-- Embeds `JobStatusManager.get_job_status`. -/
def get_job_status (st : JobStore) (job_id : String) : Except String (Option StatusData) :=
  if st.connected then .ok (getKey st.statuses job_id) else .error redisErrMsg

/-- Embeds `JobStatusManager.set_job_result`. -/
def set_job_result (st : JobStore) (job_id : String) (blob : ResultBlob) :
    Except String JobStore :=
  if st.connected then .ok (writeResult st job_id blob) else .error redisErrMsg

/-- Embeds `JobStatusManager.get_job_result`. -/
def get_job_result (st : JobStore) (job_id : String) : Except String (Option ResultBlob) :=
  if st.connected then .ok (getKey st.results job_id) else .error redisErrMsg

/-- Embeds `JobStatusManager.set_job_progress`. -/
def set_job_progress (st : JobStore) (job_id : String) (p : Nat) (message : Option String)
    (t : Nat) : Except String JobStore :=
  if st.connected then .ok (writeProgress st job_id p message t) else .error redisErrMsg

/-- Embeds `JobStatusManager.get_active_jobs`: `KEYS job_status:*` with the
key family stripped back to job ids. -/
def get_active_jobs (st : JobStore) : Except String (List String) :=
  if st.connected then .ok (st.statuses.map Prod.fst) else .error redisErrMsg

/-! ## LaTeX validation (`LaTeXService.validate_latex_content`,
`app/services/latex_service.py`) -/

/-- Whether the character list starts with the given pattern. -/
def charsStartWith : List Char → List Char → Bool
  | _, [] => true
  | [], _ :: _ => false
  | c :: cs, p :: ps => c = p && charsStartWith cs ps

/-- Whether the pattern occurs as a contiguous subsequence. -/
def charsContain : List Char → List Char → Bool
  | [], p => p.isEmpty
  | c :: cs, p => charsStartWith (c :: cs) p || charsContain cs p

/-- Substring occurrence test, mirroring Python's `in` on strings. -/
def strContains (s pat : String) : Bool := charsContain s.data pat.data

/-- Python truthiness of `content.strip()`: a string is blank when every
character is whitespace. -/
def pyBlank (s : String) : Bool := s.data.all (fun c => c.isWhitespace)

/-- Embeds `LaTeXService.validate_latex_content`: non-blank and contains
`\documentclass`, `\begin{document}` and `\end{document}`. -/
def validate_latex_content (content : String) : Bool :=
  if pyBlank content then false
  else
    strContains content "\\documentclass"
      && strContains content "\\begin\x7bdocument\x7d"
      && strContains content "\\end\x7bdocument\x7d"

/-! ## Compile executor (`compile_latex_task`, `app/workers/latex_worker.py`)

The external collaborator call `latex_service.compile_latex` is passed in
as `collab` (`Except.error` = the call raised).  The function returns the
final store state together with the task body's outcome: `Except.ok` is
the returned dict, `Except.error` is an exception propagating out of the
task (the Celery `self.retry` re-raise, or the Redis client check).
Identity fields of the result dict (`user_id`, `device_fingerprint`) are
elided; the modelled clock `t` is constant within the run, so the
measured `compilation_time` is `0`. -/

/-- The validation error message of `compile_latex_task`. -/
def invalidLatexMsg : String :=
  "Invalid LaTeX content. Must contain \\documentclass, \\begin\x7bdocument\x7d, and \\end\x7bdocument\x7d"

/-- Embeds `compile_latex_task` (`app/workers/latex_worker.py:22-191`). -/
def compile_latex_task (st : JobStore) (latex_content job_id task_id : String)
    (collab : Except String CompilationResponse) (metadata : Meta)
    (retries max_retries : Nat) (t : Nat) :
    JobStore × Except String CompileResult :=
  if st.connected then
    let st1 := writeStatus st job_id .processing
      (("task_id", task_id) :: ("started_at", toString t) :: metadata) t
    let st2 := writeProgress st1 job_id 10 (some "Validating LaTeX content") t
    if validate_latex_content latex_content = false then
      -- the source sets the failed status and returns: no set_job_result call
      let st3 := writeStatus st2 job_id .failed
        [("error", invalidLatexMsg), ("completed_at", toString t)] t
      (st3, .ok { success := false, job_id := job_id, task_id := task_id,
                  message := invalidLatexMsg, compilation_time := none,
                  pdf_size := none, log_output := none, completed_at := none,
                  error := some invalidLatexMsg })
    else
      let st4 := writeProgress st2 job_id 30 (some "Starting LaTeX compilation") t
      match collab with
      | .ok result =>
        let st5 :=
          if result.success then
            writeProgress st4 job_id 90 (some "Compilation successful, finalizing") t
          else
            writeProgress st4 job_id 50 (some "Compilation failed") t
        let result_data : CompileResult :=
          { success := result.success, job_id := job_id, task_id := task_id,
            message := result.message, compilation_time := some 0,
            pdf_size := if result.success then result.pdf_size else none,
            log_output := result.log_output, completed_at := some t,
            error := if result.success then none else some result.message }
        let final_status := if result.success then Status.completed else Status.failed
        let st6 := writeStatus st5 job_id final_status
          [("task_id", task_id), ("completed_at", toString t),
           ("success", toString result.success)] t
        let st7 := writeResult st6 job_id (.compile result_data)
        let st8 := writeProgress st7 job_id 100 (some "Task completed") t
        (st8, .ok result_data)
      | .error e =>
        -- `except Exception as e` branch
        let error_data : CompileResult :=
          { success := false, job_id := job_id, task_id := task_id,
            message := "Compilation error: " ++ e, compilation_time := none,
            pdf_size := none, log_output := none, completed_at := some t,
            error := some e }
        let st5 := writeStatus st4 job_id .failed
          [("task_id", task_id), ("error", e), ("completed_at", toString t)] t
        let st6 := writeResult st5 job_id (.compile error_data)
        if retries < max_retries then (st6, .error e) else (st6, .ok error_data)
  else
    -- the first set_job_status raises; the except branch's own status
    -- write raises again, so the exception propagates with no store write
    (st, .error redisErrMsg)

/-- Status stored for a job, if any (reads through `get_job_status`'s
store lookup). -/
def statusOf (st : JobStore) (job_id : String) : Option Status :=
  (getKey st.statuses job_id).map (·.status)

/-- Claim C1: refuted at the code's input-validation failure branch: for a
connected store and invalid LaTeX input, `compile_latex_task` sets the
job status to `failed` but stores no result blob, so `get_job_result`
returns an absent blob while `get_job_status` reports `failed` —
violating the claimed result/status consistency. -/
theorem c1_compile_validation_failure_stores_no_result :
    (let st0 : JobStore := ⟨true, [], [], []⟩
     let out := compile_latex_task st0 "" "job1" "task1"
       (.ok ⟨true, "ok", some 1, none⟩) [] 0 3 5
     statusOf out.1 "job1" = some Status.failed
       ∧ get_job_result out.1 "job1" = .ok none
       ∧ (out.2.map CompileResult.success) = .ok false) := by
  refine ⟨by decide, by decide, by decide⟩

/-! ## Combined executor (`compile_latex_with_optimization_task`,
`app/workers/latex_worker.py:194-383`)

Phase 1 (`optimize_resume_task.apply(...).get()`) is passed in as `opt`
(`Except.error` = the nested optimization task raised through `.get()`).
Phase 2 is a nested call to `compile_latex_task` itself with job id
`job_id ++ "_compiled"`; its collaborator outcome is `collab` and its
eagerly-executed request has zero prior retries against the Celery
default maximum of 3. -/

/-- The `except Exception` clause shared by the combined task's failure
paths: build the all-`None` error payload, write failed status and the
result blob, and re-raise for retry while the retry budget lasts. -/
def combinedExceptBranch (st : JobStore) (job_id task_id e : String)
    (retries max_retries : Nat) (t : Nat) : JobStore × Except String CombinedResult :=
  let error_data : CombinedResult :=
    { success := false, job_id := job_id, task_id := task_id,
      message := "Task error: " ++ e, error := some e,
      optimization := none, compilation := none, completed_at := some t }
  let st1 := writeStatus st job_id .failed
    [("task_id", task_id), ("error", e), ("completed_at", toString t)] t
  let st2 := writeResult st1 job_id (.combined error_data)
  if retries < max_retries then (st2, .error e) else (st2, .ok error_data)

/-- Embeds `compile_latex_with_optimization_task`. -/
def compile_latex_with_optimization_task (st : JobStore)
    (latex_content job_description job_id task_id nested_task_id : String)
    (opt : Except String OptResult) (collab : Except String CompilationResponse)
    (metadata : Meta) (retries max_retries : Nat) (t : Nat) :
    JobStore × Except String CombinedResult :=
  if st.connected then
    let st1 := writeStatus st job_id .processing
      (("task_id", task_id) :: ("started_at", toString t)
        :: ("stage", "optimization") :: metadata) t
    let st2 := writeProgress st1 job_id 20 (some "Optimizing resume with AI") t
    match opt with
    | .error e => combinedExceptBranch st2 job_id task_id e retries max_retries t
    | .ok optr =>
      if optr.success = false then
        let error_msg := "Optimization failed: " ++ (optr.error.getD "Unknown error")
        let st3 := writeStatus st2 job_id .failed
          [("error", error_msg), ("stage", "optimization"), ("completed_at", toString t)] t
        (st3, .ok { success := false, job_id := job_id, task_id := task_id,
                    message := error_msg, error := some error_msg,
                    optimization := some optr, compilation := none,
                    completed_at := none })
      else
        let st4 := writeProgress st2 job_id 60 (some "Compiling optimized LaTeX") t
        let st5 := writeStatus st4 job_id .processing
          [("task_id", task_id), ("stage", "compilation"),
           ("optimization_completed", "true")] t
        let optimized_latex := optr.optimized_latex.getD latex_content
        let nested := compile_latex_task st5 optimized_latex (job_id ++ "_compiled")
          nested_task_id collab [("optimized", "true"), ("original_job_id", job_id)] 0 3 t
        match nested.2 with
        | .error e => combinedExceptBranch nested.1 job_id task_id e retries max_retries t
        | .ok compr =>
          let combined_success := optr.success && compr.success
          let combined0 : CombinedResult :=
            { success := combined_success, job_id := job_id, task_id := task_id,
              optimization := some optr, compilation := some compr,
              message := "Optimization and compilation completed",
              error := none, completed_at := some t }
          let combined :=
            if combined_success then combined0
            else { combined0 with
                   error := some "Either optimization or compilation failed",
                   message := "Optimization and compilation failed" }
          let final_status := if combined_success then Status.completed else Status.failed
          let st6 := writeStatus nested.1 job_id final_status
            [("task_id", task_id), ("completed_at", toString t),
             ("success", toString combined_success), ("stage", "completed")] t
          let st7 := writeResult st6 job_id (.combined combined)
          let st8 := writeProgress st7 job_id 100
            (some "Optimization and compilation completed") t
          (st8, .ok combined)
  else
    (st, .error redisErrMsg)

/-! ### Helper lemmas about the store writes -/

theorem statuses_writeProgress (st : JobStore) (j : String) (p : Nat) (m : Option String)
    (t : Nat) : (writeProgress st j p m t).statuses = st.statuses := rfl

theorem statuses_writeResult (st : JobStore) (j : String) (b : ResultBlob) :
    (writeResult st j b).statuses = st.statuses := rfl

theorem getKey_statuses_writeStatus_ne (st : JobStore) (j k : String) (s : Status)
    (m : Meta) (t : Nat) (h : j ≠ k) :
    getKey (writeStatus st j s m t).statuses k = getKey st.statuses k :=
  getKey_setKey_ne st.statuses j k _ h

theorem self_ne_append_compiled (s : String) : s ≠ s ++ "_compiled" := by
  intro h
  have hl := String.length_append s "_compiled"
  rw [← h] at hl
  have h2 : "_compiled".length = 9 := by decide
  omega

/-- After any connected run of `compile_latex_task`, the job's status key
is populated: every branch starts by writing `processing` and only ever
rewrites the same key. -/
theorem compile_task_writes_own_status (st : JobStore) (lc j tid : String)
    (collab : Except String CompilationResponse) (meta : Meta) (r mr t : Nat)
    (hconn : st.connected = true) :
    (getKey (compile_latex_task st lc j tid collab meta r mr t).1.statuses j).isSome = true := by
  unfold compile_latex_task
  rw [hconn]
  simp only [if_true]
  cases hv : validate_latex_content lc with
  | false =>
    simp [writeStatus, writeProgress, getKey_setKey_self]
  | true =>
    cases collab with
    | ok res =>
      cases hs : res.success <;>
        simp [writeStatus, writeProgress, writeResult, getKey_setKey_self]
    | error e =>
      by_cases hr : r < mr <;>
        simp [hr, writeStatus, writeProgress, writeResult, getKey_setKey_self]

/-- On every branch, `compile_latex_task` writes status keys only for its
own job id. -/
theorem compile_task_statuses_other (st : JobStore) (lc j tid : String)
    (collab : Except String CompilationResponse) (meta : Meta) (r mr t : Nat)
    (k : String) (hk : j ≠ k) :
    getKey (compile_latex_task st lc j tid collab meta r mr t).1.statuses k
      = getKey st.statuses k := by
  unfold compile_latex_task
  cases hc : st.connected with
  | false => simp
  | true =>
    simp only [if_true]
    cases hv : validate_latex_content lc with
    | false =>
      simp [writeStatus, writeProgress, getKey_setKey_ne _ _ _ _ hk]
    | true =>
      cases collab with
      | ok res =>
        cases hs : res.success <;>
          simp [hs, writeStatus, writeProgress, writeResult, getKey_setKey_ne _ _ _ _ hk]
      | error e =>
        by_cases hr : r < mr <;>
          simp [hr, writeStatus, writeProgress, writeResult, getKey_setKey_ne _ _ _ _ hk]

@[simp] theorem connected_writeStatus (st : JobStore) (j : String) (s : Status) (m : Meta)
    (t : Nat) : (writeStatus st j s m t).connected = st.connected := rfl

@[simp] theorem connected_writeProgress (st : JobStore) (j : String) (p : Nat)
    (m : Option String) (t : Nat) : (writeProgress st j p m t).connected = st.connected := rfl

@[simp] theorem connected_writeResult (st : JobStore) (j : String) (b : ResultBlob) :
    (writeResult st j b).connected = st.connected := rfl

/-- The shared except-clause leaves status keys of other jobs untouched. -/
theorem combinedExceptBranch_statuses_other (st : JobStore) (j tid e : String)
    (r m t : Nat) (k : String) (hk : j ≠ k) :
    getKey (combinedExceptBranch st j tid e r m t).1.statuses k = getKey st.statuses k := by
  unfold combinedExceptBranch
  by_cases h : r < m <;>
    simp [h, writeResult, writeStatus, getKey_setKey_ne _ _ _ _ hk]

/-- When the collaborator call itself does not raise, `compile_latex_task`
returns its dict normally (no exception escapes the task body). -/
theorem compile_task_ok_of_collab_ok (st : JobStore) (lc j tid : String)
    (r : CompilationResponse) (meta : Meta) (rr mm t : Nat)
    (hconn : st.connected = true) :
    ∃ cres : CompileResult,
      (compile_latex_task st lc j tid (.ok r) meta rr mm t).2 = .ok cres := by
  unfold compile_latex_task
  rw [hconn]
  simp only [if_true]
  cases hv : validate_latex_content lc <;> cases hs : r.success <;> simp [hs]

/-- Claim C4: for every combined optimize-and-compile job on a connected
store: when the optimization phase succeeds, the compile phase runs under
the derived job id `job_id ++ "_compiled"` (its status key is written),
and for a non-raising compiler collaborator the returned combined blob
carries both phase results with `success` equal to the conjunction of the
two phases' `success` flags; when the optimization phase fails, the
derived job id is never touched (compile phase not invoked) and the
returned blob has `success := false`, `compilation := none` and an error
naming the optimization stage. -/
theorem c4_combined_two_phase (st : JobStore) (lc jd jid tid ntid : String)
    (optr : OptResult) (collab : Except String CompilationResponse) (metadata : Meta)
    (retries max_retries t : Nat)
    (hconn : st.connected = true)
    (hfresh : getKey st.statuses (jid ++ "_compiled") = none) :
    (optr.success = true →
       (getKey (compile_latex_with_optimization_task st lc jd jid tid ntid (.ok optr) collab
          metadata retries max_retries t).1.statuses (jid ++ "_compiled")).isSome = true
       ∧ (∀ r : CompilationResponse, collab = .ok r →
           ∃ cr : CombinedResult, ∃ compr : CompileResult,
             (compile_latex_with_optimization_task st lc jd jid tid ntid (.ok optr) collab
               metadata retries max_retries t).2 = .ok cr
             ∧ cr.optimization = some optr
             ∧ cr.compilation = some compr
             ∧ cr.success = (optr.success && compr.success)))
    ∧ (optr.success = false →
       getKey (compile_latex_with_optimization_task st lc jd jid tid ntid (.ok optr) collab
          metadata retries max_retries t).1.statuses (jid ++ "_compiled") = none
       ∧ (compile_latex_with_optimization_task st lc jd jid tid ntid (.ok optr) collab
          metadata retries max_retries t).2
         = .ok { success := false, job_id := jid, task_id := tid,
                 message := "Optimization failed: " ++ (optr.error.getD "Unknown error"),
                 error := some ("Optimization failed: " ++ (optr.error.getD "Unknown error")),
                 optimization := some optr, compilation := none,
                 completed_at := none }) := by
  have hne : jid ≠ jid ++ "_compiled" := self_ne_append_compiled jid
  constructor
  · intro hsucc
    constructor
    · unfold compile_latex_with_optimization_task
      rw [hconn]
      simp only [if_true, hsucc]
      rw [if_neg (by decide : ¬ ((true : Bool) = false))]
      split
      · rw [combinedExceptBranch_statuses_other _ _ _ _ _ _ _ _ hne]
        exact compile_task_writes_own_status _ _ _ _ _ _ _ _ _ (by simp [hconn])
      · simp only [statuses_writeProgress, statuses_writeResult]
        rw [getKey_statuses_writeStatus_ne _ _ _ _ _ _ hne]
        exact compile_task_writes_own_status _ _ _ _ _ _ _ _ _ (by simp [hconn])
    · intro r hr
      subst hr
      by_cases hv :
          validate_latex_content (optr.optimized_latex.getD lc) = false <;>
        cases hs : r.success <;>
          simp [compile_latex_with_optimization_task, compile_latex_task, hconn, hsucc,
            hv, hs, writeStatus, writeProgress, writeResult]
  · intro hsf
    unfold compile_latex_with_optimization_task
    rw [hconn]
    simp only [if_true, hsf]
    refine ⟨?_, trivial⟩
    simp only [writeStatus, writeProgress]
    rw [getKey_setKey_ne _ _ _ _ hne, getKey_setKey_ne _ _ _ _ hne]
    exact hfresh

/-- Witness for C4: a concrete successful-optimization run on an empty
connected store populates the derived `"j_compiled"` status key. -/
theorem c4_combined_two_phase_witness :
    (getKey (compile_latex_with_optimization_task ⟨true, [], [], []⟩ "src" "desc" "j" "t1" "t2"
        (.ok ⟨true, none, some "opt"⟩) (.ok ⟨true, "ok", some 10, none⟩) [] 0 3 7).1.statuses
        ("j" ++ "_compiled")).isSome = true :=
  ((c4_combined_two_phase ⟨true, [], [], []⟩ "src" "desc" "j" "t1" "t2"
      ⟨true, none, some "opt"⟩ (.ok ⟨true, "ok", some 10, none⟩) [] 0 3 7 rfl rfl).1 rfl).1

/-! ## Realtime fan-out manager (`ConnectionManager`,
`app/api/job_routes.py:73-139`)

Connections are identified by their `connection_id`; the WebSocket
objects themselves are abstracted away and a send attempt's outcome is
supplied as `sendFails : String → Bool` (`true` = `send_json` raises for
that connection). -/

structure ConnManager where
  active_connections : List String
  job_subscriptions : List (String × List String)
  deriving DecidableEq, Repr

/-- Embeds `ConnectionManager.connect`: register the connection id (dict key
assignment; re-registering an existing id leaves the key set unchanged). -/
def ConnManager.connect (m : ConnManager) (cid : String) : ConnManager :=
  if cid ∈ m.active_connections then m
  else { m with active_connections := m.active_connections ++ [cid] }

/-- Embeds `ConnectionManager.disconnect`: drop the connection id from the
active dict and `.remove` it (first occurrence) from every job's
subscriber list it appears in. -/
def ConnManager.disconnect (m : ConnManager) (cid : String) : ConnManager :=
  { active_connections := m.active_connections.erase cid,
    job_subscriptions := m.job_subscriptions.map (fun p => (p.1, p.2.erase cid)) }

/-- Embeds `ConnectionManager.subscribe_to_job`: create the job's list if
absent, then append the connection id only if not already present. -/
def ConnManager.subscribe_to_job (m : ConnManager) (cid job_id : String) : ConnManager :=
  let conns := (getKey m.job_subscriptions job_id).getD []
  let conns' := if cid ∈ conns then conns else conns ++ [cid]
  { m with job_subscriptions := setKey m.job_subscriptions job_id conns' }

/-- Embeds `ConnectionManager.send_job_update`: iterate the job's subscriber
list, sending to each connection that is in the active dict; a send
failure (or an inactive entry) puts the id on `disconnected_connections`,
which is then `.remove`d from this job's subscriber list only.  Returns
the new manager state and the list of connection ids the payload was
delivered to, in iteration order. -/
def ConnManager.send_job_update (m : ConnManager) (sendFails : String → Bool)
    (job_id : String) : ConnManager × List String :=
  match getKey m.job_subscriptions job_id with
  | none => (m, [])
  | some conns =>
    let delivered := conns.filter
      (fun c => decide (c ∈ m.active_connections) && !(sendFails c))
    let disconnected := conns.filter
      (fun c => !(decide (c ∈ m.active_connections) && !(sendFails c)))
    let newConns := disconnected.foldl (fun acc c => acc.erase c) conns
    ({ m with job_subscriptions := setKey m.job_subscriptions job_id newConns },
     delivered)

/-! ## Cancel endpoint (`cancel_job`, `app/api/job_routes.py:298-320`)

`DELETE /jobs/{job_id}`: writes `cancelled` through the lifecycle
manager, notifies WebSocket subscribers, and returns 200; any exception
(in particular the store's client-not-initialized error) is caught by
the handler and surfaced as HTTP 500. -/

structure CancelResponse where
  http_status : Nat
  success : Bool
  message : String
  deriving DecidableEq, Repr

def cancel_job (st : JobStore) (m : ConnManager) (sendFails : String → Bool)
    (job_id : String) (t : Nat) : JobStore × ConnManager × CancelResponse :=
  match set_job_status st job_id .cancelled [("cancelled_at", toString t)] t with
  | .ok st' =>
    let upd := m.send_job_update sendFails job_id
    (st', upd.1, ⟨200, true, "Job cancelled successfully"⟩)
  | .error _ => (st, m, ⟨500, false, "Internal server error"⟩)

/-- A minimal valid LaTeX source accepted by `validate_latex_content`. -/
def goodLatex : String :=
  "\\documentclass\x7barticle\x7d\\begin\x7bdocument\x7dhi\\end\x7bdocument\x7d"

/-- Claim C2 counterexample: a job driven to the terminal `completed`
status by a successful compile run is afterwards overwritten to
`cancelled` by the cancel endpoint — a terminal state is overwritten and
`cancelled` is applied from `completed`, not only from
pending/processing. -/
theorem c2_counterexample_cancel_overwrites_completed :
    (let st0 : JobStore := ⟨true, [], [], []⟩
     let run := compile_latex_task st0 goodLatex "j" "t1"
       (.ok ⟨true, "ok", some 4, none⟩) [] 0 3 1
     let afterCancel := cancel_job run.1 ⟨[], []⟩ (fun _ => false) "j" 2
     statusOf run.1 "j" = some Status.completed
       ∧ statusOf afterCancel.1 "j" = some Status.cancelled) := by
  refine ⟨by decide, by decide⟩

/-- Claim C2 (amended): the lifecycle manager enforces no transition
discipline: on a connected store, `set_job_status` unconditionally
overwrites the stored status with the new value regardless of the
previous status (terminal or not); callers such as the cancel endpoint
can therefore apply any status, including `cancelled`, from any state. -/
theorem c2_set_job_status_unconditional_overwrite (st : JobStore) (job_id : String)
    (s : Status) (meta : Meta) (t : Nat) (hconn : st.connected = true) :
    ∃ st' : JobStore, set_job_status st job_id s meta t = .ok st'
      ∧ statusOf st' job_id = some s := by
  refine ⟨writeStatus st job_id s meta t, ?_, ?_⟩
  · simp [set_job_status, hconn]
  · simp [statusOf, writeStatus, getKey_setKey_self]

/-- Witness for the amended C2: `cancelled` is written over an existing
terminal `completed` status. -/
theorem c2_set_job_status_unconditional_overwrite_witness :
    ∃ st' : JobStore,
      set_job_status ⟨true, [("j", ⟨Status.completed, 0, []⟩)], [], []⟩ "j"
          Status.cancelled [] 3 = .ok st'
        ∧ statusOf st' "j" = some Status.cancelled :=
  c2_set_job_status_unconditional_overwrite
    ⟨true, [("j", ⟨Status.completed, 0, []⟩)], [], []⟩ "j" Status.cancelled [] 3 rfl

/-- Claim C7 counterexample: with the key-value store unreachable (client
not initialized), the cancel endpoint's exception handler returns
HTTP 500, not 200 — the endpoint is not "always 200 regardless of
whether the key-value store is reachable". -/
theorem c7_counterexample_store_down_returns_500 :
    (cancel_job ⟨false, [], [], []⟩ ⟨[], []⟩ (fun _ => false) "j" 0).2.2.http_status = 500
      ∧ (cancel_job ⟨false, [], [], []⟩ ⟨[], []⟩ (fun _ => false) "j" 0).2.2.http_status ≠ 200 := by
  refine ⟨by decide, by decide⟩

/-- Claim C7 (amended): when the store is reachable, the cancel endpoint
writes `cancelled` (whatever the job's current state, or none), pushes
the update to subscribers, and returns HTTP 200; when the store client
is not initialized, the write raises and the handler returns HTTP 500
with the store unchanged. -/
theorem c7_cancel_endpoint_behavior (st : JobStore) (m : ConnManager)
    (sendFails : String → Bool) (job_id : String) (t : Nat) :
    (st.connected = true →
       (cancel_job st m sendFails job_id t).2.2.http_status = 200
       ∧ statusOf (cancel_job st m sendFails job_id t).1 job_id = some Status.cancelled
       ∧ (cancel_job st m sendFails job_id t).2.1 = (m.send_job_update sendFails job_id).1)
    ∧ (st.connected = false →
       (cancel_job st m sendFails job_id t).2.2.http_status = 500
       ∧ (cancel_job st m sendFails job_id t).1 = st
       ∧ (cancel_job st m sendFails job_id t).2.1 = m) := by
  constructor
  · intro hconn
    refine ⟨?_, ?_, ?_⟩ <;>
      simp [cancel_job, set_job_status, hconn, statusOf, writeStatus, getKey_setKey_self]
  · intro hdis
    refine ⟨?_, ?_, ?_⟩ <;>
      simp [cancel_job, set_job_status, hdis]

/-- Witness for C7: a reachable store yields 200 with the status set to
`cancelled`, applied at a job currently `processing`. -/
theorem c7_cancel_endpoint_behavior_witness :
    (cancel_job ⟨true, [("j", ⟨Status.processing, 0, []⟩)], [], []⟩ ⟨[], []⟩
        (fun _ => false) "j" 1).2.2.http_status = 200
      ∧ statusOf (cancel_job ⟨true, [("j", ⟨Status.processing, 0, []⟩)], [], []⟩ ⟨[], []⟩
        (fun _ => false) "j" 1).1 "j" = some Status.cancelled :=
  ⟨((c7_cancel_endpoint_behavior ⟨true, [("j", ⟨Status.processing, 0, []⟩)], [], []⟩ ⟨[], []⟩
      (fun _ => false) "j" 1).1 rfl).1,
   ((c7_cancel_endpoint_behavior ⟨true, [("j", ⟨Status.processing, 0, []⟩)], [], []⟩ ⟨[], []⟩
      (fun _ => false) "j" 1).1 rfl).2.1⟩

/-! ### List facts for the fan-out proofs -/

theorem mem_foldl_erase {α : Type} [DecidableEq α] (ds : List α) :
    ∀ (l : List α), l.Nodup → ∀ x : α,
      (x ∈ ds.foldl (fun acc c => acc.erase c) l ↔ (x ∈ l ∧ x ∉ ds)) := by
  induction ds with
  | nil => intro l _ x; simp
  | cons d ds ih =>
    intro l hl x
    simp only [List.foldl_cons]
    rw [ih (l.erase d) (hl.erase d) x, hl.mem_erase_iff]
    constructor
    · rintro ⟨⟨hxd, hxl⟩, hxds⟩
      exact ⟨hxl, by simp [hxd, hxds]⟩
    · rintro ⟨hxl, hnot⟩
      simp only [List.mem_cons, not_or] at hnot
      exact ⟨⟨hnot.1, hxl⟩, hnot.2⟩

theorem nodup_foldl_erase {α : Type} [DecidableEq α] (ds : List α) :
    ∀ (l : List α), l.Nodup → (ds.foldl (fun acc c => acc.erase c) l).Nodup := by
  induction ds with
  | nil => intro l hl; simpa using hl
  | cons d ds ih =>
    intro l hl
    simp only [List.foldl_cons]
    exact ih (l.erase d) (hl.erase d)

theorem getKey_map_erase (cid : String) :
    ∀ (l : List (String × List String)) (k : String),
      getKey (l.map (fun p => (p.1, p.2.erase cid))) k
        = (getKey l k).map (fun l2 => l2.erase cid) := by
  intro l
  induction l with
  | nil => intro k; rfl
  | cons hd tl ih =>
    intro k
    obtain ⟨k0, v0⟩ := hd
    by_cases h : k0 = k <;> simp [h, ih]

/-- Claim C5 counterexample: connection `"c1"` is subscribed to jobs `"A"`
and `"B"` and its send raises during `send_job_update` for `"A"`.  The
source removes it from `"A"`'s subscriber list only: it remains
subscribed to `"B"` and remains in the active-connection dict, so it is
not "removed from all subscription lists" as claimed. -/
theorem c5_counterexample_failed_send_pruned_locally_only :
    (let m : ConnManager := ⟨["c1", "c2"], [("A", ["c1", "c2"]), ("B", ["c1"])]⟩
     let out := m.send_job_update (fun c => c = "c1") "A"
     out.2 = ["c2"]
       ∧ getKey out.1.job_subscriptions "A" = some ["c2"]
       ∧ getKey out.1.job_subscriptions "B" = some ["c1"]
       ∧ out.1.active_connections = ["c1", "c2"]) := by
  refine ⟨by decide, by decide, by decide, by decide⟩

/-- Claim C5 (amended): `send_job_update job_id` delivers the payload
exactly once to each connection that is subscribed to `job_id`, active
and whose send does not raise, and to no other connection; a raising (or
inactive) connection is removed from `job_id`'s own subscriber list
only — every other job's subscriber list and the active-connection set
are left unchanged — while all remaining subscribers still receive the
payload. -/
theorem c5_send_job_update_delivery (m : ConnManager) (sendFails : String → Bool)
    (job_id : String) (conns : List String)
    (hsub : getKey m.job_subscriptions job_id = some conns)
    (hnd : conns.Nodup) :
    ((m.send_job_update sendFails job_id).2.Nodup
      ∧ (∀ c, c ∈ (m.send_job_update sendFails job_id).2
          ↔ (c ∈ conns ∧ c ∈ m.active_connections ∧ sendFails c = false))
      ∧ (m.send_job_update sendFails job_id).1.active_connections = m.active_connections
      ∧ (∀ j, j ≠ job_id →
          getKey (m.send_job_update sendFails job_id).1.job_subscriptions j
            = getKey m.job_subscriptions j)
      ∧ (∃ conns',
          getKey (m.send_job_update sendFails job_id).1.job_subscriptions job_id
              = some conns'
            ∧ conns'.Nodup
            ∧ (∀ c, c ∈ conns'
                ↔ (c ∈ conns ∧ c ∈ m.active_connections ∧ sendFails c = false)))) := by
  unfold ConnManager.send_job_update
  rw [hsub]
  refine ⟨hnd.filter _, ?_, rfl, ?_, ?_⟩
  · intro c
    simp [List.mem_filter]
  · intro j hj
    exact getKey_setKey_ne _ _ _ _ (fun h => hj h.symm)
  · refine ⟨_, getKey_setKey_self _ _ _, nodup_foldl_erase _ _ hnd, ?_⟩
    intro c
    rw [mem_foldl_erase _ _ hnd c]
    simp only [List.mem_filter, Bool.not_eq_true']
    constructor
    · rintro ⟨hc, hnot⟩
      refine ⟨hc, ?_⟩
      rcases Bool.eq_false_or_eq_true
          (decide (c ∈ m.active_connections) && !(sendFails c)) with hg | hg
      · simp only [Bool.and_eq_true, Bool.not_eq_true', decide_eq_true_eq] at hg
        exact hg
      · exact absurd ⟨hc, hg⟩ hnot
    · rintro ⟨hc, hact, hfail⟩
      refine ⟨hc, ?_⟩
      rintro ⟨-, hbad⟩
      have hg : (decide (c ∈ m.active_connections) && !(sendFails c)) = true := by
        simp [hact, hfail]
      simp [hg] at hbad

/-- Witness for the amended C5: with `"c1"` failing, `"c2"` (the
remaining live subscriber of `"A"`) still receives the payload. -/
theorem c5_send_job_update_delivery_witness :
    "c2" ∈ ((⟨["c1", "c2"], [("A", ["c1", "c2"]), ("B", ["c1"])]⟩ : ConnManager).send_job_update
        (fun c => c = "c1") "A").2 :=
  ((c5_send_job_update_delivery ⟨["c1", "c2"], [("A", ["c1", "c2"]), ("B", ["c1"])]⟩
      (fun c => c = "c1") "A" ["c1", "c2"] rfl (by decide)).2.1 "c2").2
    ⟨by decide, by decide, by decide⟩

/-- Claim C9: `subscribe_to_job`'s duplicate-guarded append preserves the
invariant that every job's subscriber list holds each connection id at
most once, and under that invariant (plus uniqueness of active
connection ids) `disconnect` removes the connection id from the active
set and from every job's subscriber list. -/
theorem c9_subscribe_nodup_disconnect_scrubs (m : ConnManager) (cid job_id : String)
    (hnd : ∀ j l, getKey m.job_subscriptions j = some l → l.Nodup)
    (hact : m.active_connections.Nodup) :
    (∀ j l, getKey (m.subscribe_to_job cid job_id).job_subscriptions j = some l → l.Nodup)
    ∧ cid ∉ (m.disconnect cid).active_connections
    ∧ (∀ j l, getKey (m.disconnect cid).job_subscriptions j = some l → cid ∉ l) := by
  refine ⟨?_, ?_, ?_⟩
  · intro j l hl
    unfold ConnManager.subscribe_to_job at hl
    simp only at hl
    by_cases hj : job_id = j
    · subst hj
      rw [getKey_setKey_self] at hl
      injection hl with hl
      subst hl
      cases hx : getKey m.job_subscriptions job_id with
      | none => simp
      | some c0 =>
        have hc0 : c0.Nodup := hnd job_id c0 hx
        simp only [Option.getD_some]
        by_cases hin : cid ∈ c0
        · simpa [hin] using hc0
        · simp [hin, List.nodup_append, hc0]
    · rw [getKey_setKey_ne _ _ _ _ hj] at hl
      exact hnd j l hl
  · unfold ConnManager.disconnect
    simp only
    exact hact.not_mem_erase
  · intro j l hl
    unfold ConnManager.disconnect at hl
    simp only at hl
    rw [getKey_map_erase] at hl
    cases hx : getKey m.job_subscriptions j with
    | none => rw [hx] at hl; exact Option.noConfusion hl
    | some l0 =>
      rw [hx] at hl
      rw [show (some l0).map (fun l2 => l2.erase cid) = some (l0.erase cid) from rfl] at hl
      injection hl with hl
      subst hl
      exact (hnd j l0 hx).not_mem_erase

/-- Witness for C9: in a concrete manager, after `disconnect "c1"` the
id is gone from the active set. -/
theorem c9_subscribe_nodup_disconnect_scrubs_witness :
    "c1" ∉ ((⟨["c1", "c2"], [("A", ["c1"])]⟩ : ConnManager).disconnect "c1").active_connections :=
  (c9_subscribe_nodup_disconnect_scrubs ⟨["c1", "c2"], [("A", ["c1"])]⟩ "c1" "A"
    (by
      intro j l h
      by_cases hj : "A" = j
      · subst hj
        rw [getKey_cons, if_pos rfl] at h
        injection h with h
        subst h
        decide
      · rw [getKey_cons, if_neg hj] at h
        exact Option.noConfusion h)
    (by decide)).2.1

/-! ## Work submitters (`submit_*`, `app/workers/*.py`)

Each submitter enqueues exactly one Celery task (`apply_async`).  The
queue-assigned task identifier (`task.id`) and, where the source calls
`uuid.uuid4()`, the generated UUID are passed in as parameters; the
submitter returns the externally visible `job_id` together with the
enqueued-task descriptor. -/

/-- The task enqueued by a submitter: task name, target queue, numeric
priority (`none` = queue default) and the job id passed to the task in
its kwargs, if any. -/
structure EnqueuedTask where
  task_name : String
  queue : String
  priority : Option Nat
  kwargs_job_id : Option String
  deriving DecidableEq, Repr

def TASK_PRIORITY_HIGH : Nat := 9
def TASK_PRIORITY_NORMAL : Nat := 5
def TASK_PRIORITY_LOW : Nat := 1

/-- Embeds `get_task_priority` (`app/core/celery_app.py:117-125`). -/
def get_task_priority (user_plan : String) : Nat :=
  if user_plan = "free" then TASK_PRIORITY_LOW
  else if user_plan = "basic" then TASK_PRIORITY_NORMAL
  else if user_plan = "pro" then TASK_PRIORITY_HIGH
  else if user_plan = "byok" then TASK_PRIORITY_HIGH
  else TASK_PRIORITY_NORMAL

/-- Embeds `submit_latex_compilation` (`latex_worker.py:387-421`): the job id is
`str(uuid.uuid4())`, generated before the enqueue and passed to the task
in kwargs — it does not involve the queue-assigned task id. -/
def submit_latex_compilation (latex_content user_plan : String) (priority : Option Nat)
    (gen_uuid queue_task_id : String) : String × EnqueuedTask :=
  let job_id := gen_uuid
  let p := priority.getD (get_task_priority user_plan)
  (job_id, ⟨"compile_latex_task", "latex", some p, some job_id⟩)

/-- Embeds `submit_optimization_and_compilation` (`latex_worker.py:424-461`):
also a fresh UUID job id. -/
def submit_optimization_and_compilation (latex_content job_description user_plan : String)
    (priority : Option Nat) (gen_uuid queue_task_id : String) : String × EnqueuedTask :=
  let job_id := gen_uuid
  let p := priority.getD (get_task_priority user_plan)
  (job_id, ⟨"compile_latex_with_optimization_task", "latex", some p, some job_id⟩)

/-- Embeds `submit_resume_optimization` (`llm_worker.py:398-437`):
`job_id = f"llm_{task.id}"`. -/
def submit_resume_optimization (latex_content job_description user_plan : String)
    (priority : Option Nat) (queue_task_id : String) : String × EnqueuedTask :=
  let p := priority.getD (get_task_priority user_plan)
  ("llm_" ++ queue_task_id, ⟨"optimize_resume_task", "llm", some p, none⟩)

/-- Embeds `submit_ats_scoring` (`ats_worker.py:424-460`):
`job_id = f"ats_{task.id}"`. -/
def submit_ats_scoring (latex_content : String) (job_description : Option String)
    (user_plan : String) (priority : Option Nat) (queue_task_id : String) :
    String × EnqueuedTask :=
  let p := priority.getD (get_task_priority user_plan)
  ("ats_" ++ queue_task_id, ⟨"score_resume_ats_task", "ats", some p, none⟩)

/-- Embeds `submit_temp_files_cleanup` (`cleanup_worker.py:557-580`):
`job_id = f"cleanup_{task.id}"`; no priority argument. -/
def submit_temp_files_cleanup (max_age_hours : Nat) (queue_task_id : String) :
    String × EnqueuedTask :=
  ("cleanup_" ++ queue_task_id, ⟨"cleanup_temp_files_task", "cleanup", none, none⟩)

/-- Embeds `submit_notification_email` (`email_worker.py:475-505`):
`job_id = f"email_{task.id}"`; no priority argument. -/
def submit_notification_email (recipient_email subject message : String)
    (queue_task_id : String) : String × EnqueuedTask :=
  ("email_" ++ queue_task_id, ⟨"send_notification_email_task", "email", none, none⟩)

/-- Claim C3 counterexample: the compile submitter returns the generated
UUID, so two submissions whose tasks receive the same queue-assigned
task id return different job ids — the returned job id is not a function
of the queue-assigned task id, and carries no family tag prefixed to it. -/
theorem c3_counterexample_compile_submitter_ignores_task_id :
    (submit_latex_compilation "src" "free" none "uuid-a" "tid").1 = "uuid-a"
      ∧ (submit_latex_compilation "src" "free" none "uuid-b" "tid").1 = "uuid-b"
      ∧ ("uuid-a" : String) ≠ "uuid-b" := by
  refine ⟨rfl, rfl, by decide⟩

/-- Claim C3 (amended): the optimize, score, cleanup and notify submitters
return a job id formed by prefixing a family tag to the queue-assigned
task id (`llm_`, `ats_`, `cleanup_`, `email_`), but the two compile
submitters instead return a freshly generated UUID, independent of the
queue task id, which they pass to the task in its kwargs. -/
theorem c3_submitter_job_id_forms (tid u lc jd plan rcp subj msg : String)
    (pr : Option Nat) (age : Nat) :
    (submit_resume_optimization lc jd plan pr tid).1 = "llm_" ++ tid
    ∧ (submit_ats_scoring lc (some jd) plan pr tid).1 = "ats_" ++ tid
    ∧ (submit_temp_files_cleanup age tid).1 = "cleanup_" ++ tid
    ∧ (submit_notification_email rcp subj msg tid).1 = "email_" ++ tid
    ∧ (submit_latex_compilation lc plan pr u tid).1 = u
    ∧ (submit_latex_compilation lc plan pr u tid).2.kwargs_job_id = some u
    ∧ (submit_optimization_and_compilation lc jd plan pr u tid).1 = u :=
  ⟨rfl, rfl, rfl, rfl, rfl, rfl, rfl⟩

/-! ## Submit endpoint (`submit_job`, `app/api/job_routes.py:147-243`)

`POST /jobs/submit`.  Python truthiness: `not request.latex_content` is
true for both an absent field and the empty string.  The handler raises
`HTTPException(400)` before calling any submitter, so an error return
means no task was enqueued and the job store was never touched (the
embedding's type reflects this: `submit_job` takes no store and an
`Except.error` outcome carries no enqueued task). -/

structure JobSubmissionRequest where
  job_type : String
  latex_content : Option String
  job_description : Option String
  optimization_level : String
  user_plan : String
  deriving DecidableEq, Repr

/-- Python falsiness of an optional string field: `None` or `""`. -/
def falsyStr : Option String → Bool
  | none => true
  | some s => s = ""

/-- An `HTTPException` raised by a route handler. -/
structure HttpError where
  status_code : Nat
  detail : String
  deriving DecidableEq, Repr

def submit_job (req : JobSubmissionRequest) (gen_uuid queue_task_id : String) :
    Except HttpError (String × EnqueuedTask) :=
  if req.job_type = "latex_compilation" then
    if falsyStr req.latex_content then
      .error ⟨400, "LaTeX content is required for compilation jobs"⟩
    else
      .ok (submit_latex_compilation (req.latex_content.getD "") req.user_plan none
        gen_uuid queue_task_id)
  else if req.job_type = "llm_optimization" then
    if falsyStr req.latex_content || falsyStr req.job_description then
      .error ⟨400, "LaTeX content and job description are required for optimization jobs"⟩
    else
      .ok (submit_resume_optimization (req.latex_content.getD "")
        (req.job_description.getD "") req.user_plan none queue_task_id)
  else if req.job_type = "combined" then
    if falsyStr req.latex_content || falsyStr req.job_description then
      .error ⟨400, "LaTeX content and job description are required for combined jobs"⟩
    else
      .ok (submit_optimization_and_compilation (req.latex_content.getD "")
        (req.job_description.getD "") req.user_plan none gen_uuid queue_task_id)
  else
    .error ⟨400, "Unsupported job type: " ++ req.job_type⟩

/-- Claim C8: for every submission whose required payload fields are
missing or empty (latex_content for compile jobs; latex_content or
job_description for optimization and combined jobs), `submit_job`
returns the HTTP 400 validation error raised before any submitter is
called: the error outcome carries no enqueued task and the job store is
never touched, so no Job Record can exist for the request. -/
theorem c8_submit_validation_fails_before_enqueue (req : JobSubmissionRequest)
    (gen_uuid queue_task_id : String) :
    (req.job_type = "latex_compilation" → falsyStr req.latex_content = true →
       submit_job req gen_uuid queue_task_id
         = .error ⟨400, "LaTeX content is required for compilation jobs"⟩)
    ∧ (req.job_type = "llm_optimization" →
        (falsyStr req.latex_content = true ∨ falsyStr req.job_description = true) →
       submit_job req gen_uuid queue_task_id
         = .error ⟨400, "LaTeX content and job description are required for optimization jobs"⟩)
    ∧ (req.job_type = "combined" →
        (falsyStr req.latex_content = true ∨ falsyStr req.job_description = true) →
       submit_job req gen_uuid queue_task_id
         = .error ⟨400, "LaTeX content and job description are required for combined jobs"⟩) := by
  refine ⟨?_, ?_, ?_⟩
  · intro hty hf
    simp [submit_job, hty, hf]
  · intro hty hf
    rcases hf with hf | hf <;>
      simp [submit_job, hty, hf]
  · intro hty hf
    rcases hf with hf | hf <;>
      simp [submit_job, hty, hf]

/-- Witness for C8: an empty-source compile submission is rejected with
the 400 validation error. -/
theorem c8_submit_validation_fails_before_enqueue_witness :
    submit_job ⟨"latex_compilation", some "", none, "balanced", "free"⟩ "u" "t"
      = .error ⟨400, "LaTeX content is required for compilation jobs"⟩ :=
  (c8_submit_validation_fails_before_enqueue
    ⟨"latex_compilation", some "", none, "balanced", "free"⟩ "u" "t").1 rfl (by decide)

/-! ## Multi-provider LLM client (`MultiProviderLLMService.generate`,
`app/services/llm_provider_service.py:453-491`)

The registry is the list of registered provider names in insertion
order plus the default provider name; each provider's `generate` call
outcome is supplied as `behave` (`Except.error` = the call raised).
On a primary failure with `fallback` enabled and more than one
registered provider, the source iterates over every other registered
provider in order, returning the first success, and re-raises the
original exception only after all of them failed. -/

namespace MultiProviderLLMService

/-- The `for fallback_provider in self.providers.keys()` loop:
first fallback success wins; when the loop completes, the original
error is re-raised. -/
def try_fallbacks (behave : String → Except String String) :
    List String → String → Except String String
  | [], orig => .error orig
  | p :: rest, orig =>
    match behave p with
    | .ok r => .ok r
    | .error _ => try_fallbacks behave rest orig

/-- Embeds `MultiProviderLLMService.generate`. -/
def generate (providers : List String) (default_p : Option String)
    (behave : String → Except String String)
    (provider_name : Option String) (fallback : Bool) : Except String String :=
  let pname := match provider_name with
    | some p => some p
    | none => default_p
  match pname with
  | none => .error "No provider specified and no default provider set"
  | some p =>
    let primary : Except String String :=
      if p ∈ providers then behave p
      else .error ("Provider " ++ p ++ " not found")
    match primary with
    | .ok r => .ok r
    | .error e =>
      if fallback && decide (1 < providers.length) then
        try_fallbacks behave (providers.filter (fun q => q ≠ p)) e
      else .error e

theorem try_fallbacks_all_fail (behave : String → Except String String) :
    ∀ (l : List String) (orig : String),
      (∀ q ∈ l, ∃ eq, behave q = .error eq) →
      try_fallbacks behave l orig = .error orig := by
  intro l
  induction l with
  | nil => intro orig _; rfl
  | cons q rest ih =>
    intro orig hall
    obtain ⟨eq, heq⟩ := hall q (by simp)
    simp only [try_fallbacks, heq]
    exact ih orig (fun q1 hq1 => hall q1 (by simp [hq1]))

theorem try_fallbacks_first_ok (behave : String → Except String String) :
    ∀ (l1 : List String) (q : String) (l2 : List String) (orig r : String),
      (∀ q1 ∈ l1, ∃ eq, behave q1 = .error eq) →
      behave q = .ok r →
      try_fallbacks behave (l1 ++ q :: l2) orig = .ok r := by
  intro l1
  induction l1 with
  | nil =>
    intro q l2 orig r _ hq
    simp only [List.nil_append, try_fallbacks, hq]
  | cons q1 rest ih =>
    intro q l2 orig r hall hq
    obtain ⟨eq, heq⟩ := hall q1 (by simp)
    simp only [List.cons_append, try_fallbacks, heq]
    exact ih q l2 orig r (fun q2 hq2 => hall q2 (by simp [hq2])) hq

end MultiProviderLLMService

/-- Provider behavior for the C6 counterexample: `p3` succeeds, every
other provider raises. -/
def c6behave : String → Except String String :=
  fun p => if p = "p3" then .ok "r3" else .error ("err_" ++ p)

/-- Claim C6 counterexample: with three registered providers, the default
provider `p1` raising and the first fallback `p2` also raising, the
claim says the client propagates the original error after its single
secondary retry; the code instead goes on to the second fallback `p3`
and returns its successful response. -/
theorem c6_counterexample_more_than_one_fallback :
    MultiProviderLLMService.generate ["p1", "p2", "p3"] (some "p1") c6behave none true
        = .ok "r3"
      ∧ MultiProviderLLMService.generate ["p1", "p2", "p3"] (some "p1") c6behave none true
        ≠ .error "err_p1" := by
  refine ⟨by decide, by decide⟩

/-- Claim C6 (amended): when the selected-or-default provider's call
raises and fallback is enabled with more than one registered provider,
the client retries every other registered provider in registration
order: it returns the first fallback response that succeeds, and
propagates the original (primary) error only if every other provider
also fails. -/
theorem c6_generate_fallback_behavior (providers : List String)
    (dflt provider_name : Option String) (behave : String → Except String String)
    (p e : String)
    (hsel : (match provider_name with | some q => some q | none => dflt) = some p)
    (hp : p ∈ providers) (hfail : behave p = .error e)
    (hlen : 1 < providers.length) :
    ((∀ q ∈ providers.filter (fun q => q ≠ p), ∃ eq, behave q = .error eq) →
        MultiProviderLLMService.generate providers dflt behave provider_name true
          = .error e)
    ∧ (∀ (l1 : List String) (q : String) (l2 : List String),
        providers.filter (fun q => q ≠ p) = l1 ++ q :: l2 →
        (∀ q1 ∈ l1, ∃ eq, behave q1 = .error eq) →
        ∀ r, behave q = .ok r →
        MultiProviderLLMService.generate providers dflt behave provider_name true
          = .ok r) := by
  constructor
  · intro hall
    unfold MultiProviderLLMService.generate
    rw [hsel]
    simp only [if_pos hp, hfail, Bool.true_and]
    rw [if_pos (by simpa using hlen)]
    exact MultiProviderLLMService.try_fallbacks_all_fail behave _ e hall
  · intro l1 q l2 hsplit hall r hq
    unfold MultiProviderLLMService.generate
    rw [hsel]
    simp only [if_pos hp, hfail, Bool.true_and]
    rw [if_pos (by simpa using hlen)]
    rw [hsplit]
    exact MultiProviderLLMService.try_fallbacks_first_ok behave l1 q l2 e r hall hq

/-- Witness for the amended C6: two providers, the primary raising and
the single other provider succeeding, yields that provider's response. -/
theorem c6_generate_fallback_behavior_witness :
    MultiProviderLLMService.generate ["pa", "pb"] none
        (fun q => if q = "pb" then .ok "rb" else .error "ea") (some "pa") true
      = .ok "rb" :=
  (c6_generate_fallback_behavior ["pa", "pb"] none (some "pa")
      (fun q => if q = "pb" then .ok "rb" else .error "ea") "pa" "ea"
      rfl (by decide) (by decide) (by decide)).2
    [] "pb" [] (by decide) (by intro q1 hq1; exact absurd hq1 (by simp)) "rb" (by decide)

/-! ## List endpoint (`list_jobs`, `app/api/job_routes.py:323-385`)

`GET /jobs`: `total_count` is the length of the full
`get_active_jobs()` scan, computed before pagination and before the
status filter is applied; the per-status buckets are accumulated only
inside the loop over the `active_jobs[offset:offset+limit]` page, after
the filter's `continue`. -/

structure JobStatusResponse where
  job_id : String
  status : Status
  progress : Option Nat
  message : Option String
  deriving DecidableEq, Repr

structure JobListResponse where
  jobs : List JobStatusResponse
  total_count : Nat
  active_count : Nat
  completed_count : Nat
  failed_count : Nat
  deriving DecidableEq, Repr

/-- Embeds `job_status in ["pending", "processing"]` — the `active` bucket. -/
def bucketActive (s : Status) : Bool := s = Status.pending || s = Status.processing

/-- Accumulator of the `for job_id in paginated_jobs` loop: the response
list plus the `active`, `completed`, `failed` bucket counters. -/
abbrev ListAcc := List JobStatusResponse × Nat × Nat × Nat

/-- The loop's status-filter guard: `if status and job_status != status:
continue`. -/
def filterGuard (f : Option Status) (s : Status) : Bool :=
  match f with
  | some s0 => decide (s = s0)
  | none => true

/-- One iteration of the loop: skip when the status key is gone, skip
when the status filter is set and differs, otherwise count the bucket
and append the response row. -/
def listStep (st : JobStore) (f : Option Status) (acc : ListAcc) (job_id : String) :
    ListAcc :=
  match getKey st.statuses job_id with
  | none => acc
  | some sd =>
    if filterGuard f sd.status then
      (acc.1 ++ [⟨job_id, sd.status, (getKey st.progresses job_id).map (·.progress),
                  (getKey st.progresses job_id).bind (·.message)⟩],
       acc.2.1 + (if bucketActive sd.status then 1 else 0),
       acc.2.2.1 + (if sd.status = Status.completed then 1 else 0),
       acc.2.2.2 + (if sd.status = Status.failed then 1 else 0))
    else acc

/-- Embeds `list_jobs`. -/
def list_jobs (st : JobStore) (f : Option Status) (limit offset : Nat) :
    Except String JobListResponse :=
  match get_active_jobs st with
  | .error e => .error e
  | .ok active_jobs =>
    let total_count := active_jobs.length
    let paginated := (active_jobs.drop offset).take limit
    let acc := paginated.foldl (listStep st f) ([], 0, 0, 0)
    .ok { jobs := acc.1, total_count := total_count,
          active_count := acc.2.1, completed_count := acc.2.2.1,
          failed_count := acc.2.2.2 }

/-- Whether a job id on the page survives the loop's two guards: its
status key resolves and the status filter (if any) matches. -/
def passesFilter (st : JobStore) (f : Option Status) (j : String) : Bool :=
  match getKey st.statuses j with
  | none => false
  | some sd => filterGuard f sd.status

/-- The response row built for a surviving job id. -/
def mkJobResponse (st : JobStore) (j : String) : JobStatusResponse :=
  { job_id := j,
    status := ((getKey st.statuses j).map (·.status)).getD Status.pending,
    progress := (getKey st.progresses j).map (·.progress),
    message := (getKey st.progresses j).bind (·.message) }

/-- The job ids of the requested page that pass the status filter, in
scan order — the population the buckets are computed over. -/
def pageFiltered (st : JobStore) (f : Option Status) (limit offset : Nat) : List String :=
  (((st.statuses.map Prod.fst).drop offset).take limit).filter (passesFilter st f)

theorem listStep_eq_absent (st : JobStore) (f : Option Status) (acc : ListAcc)
    (j : String) (hx : getKey st.statuses j = none) : listStep st f acc j = acc := by
  simp [listStep, hx]

theorem listStep_eq_found (st : JobStore) (f : Option Status) (acc : ListAcc)
    (j : String) (sd : StatusData) (hx : getKey st.statuses j = some sd) :
    listStep st f acc j
      = if filterGuard f sd.status then
          (acc.1 ++ [⟨j, sd.status, (getKey st.progresses j).map (·.progress),
                      (getKey st.progresses j).bind (·.message)⟩],
           acc.2.1 + (if bucketActive sd.status then 1 else 0),
           acc.2.2.1 + (if sd.status = Status.completed then 1 else 0),
           acc.2.2.2 + (if sd.status = Status.failed then 1 else 0))
        else acc := by
  simp [listStep, hx]

theorem passesFilter_eq_absent (st : JobStore) (f : Option Status) (j : String)
    (hx : getKey st.statuses j = none) : passesFilter st f j = false := by
  simp [passesFilter, hx]

theorem passesFilter_eq_found (st : JobStore) (f : Option Status) (j : String)
    (sd : StatusData) (hx : getKey st.statuses j = some sd) :
    passesFilter st f j = filterGuard f sd.status := by
  simp [passesFilter, hx]

theorem listStep_foldl_spec (st : JobStore) (f : Option Status) :
    ∀ (l : List String) (acc : ListAcc),
      (l.foldl (listStep st f) acc).1
          = acc.1 ++ (l.filter (passesFilter st f)).map (mkJobResponse st)
      ∧ (l.foldl (listStep st f) acc).2.1
          = acc.2.1 + ((l.filter (passesFilter st f)).map (mkJobResponse st)).countP
              (fun r => bucketActive r.status)
      ∧ (l.foldl (listStep st f) acc).2.2.1
          = acc.2.2.1 + ((l.filter (passesFilter st f)).map (mkJobResponse st)).countP
              (fun r => decide (r.status = Status.completed))
      ∧ (l.foldl (listStep st f) acc).2.2.2
          = acc.2.2.2 + ((l.filter (passesFilter st f)).map (mkJobResponse st)).countP
              (fun r => decide (r.status = Status.failed)) := by
  intro l
  induction l with
  | nil => intro acc; simp
  | cons j l ih =>
    intro acc
    rw [List.foldl_cons, List.filter_cons]
    cases hx : getKey st.statuses j with
    | none =>
      rw [listStep_eq_absent st f acc j hx, passesFilter_eq_absent st f j hx]
      simp only [Bool.false_eq_true, if_false]
      exact ih acc
    | some sd =>
      rw [listStep_eq_found st f acc j sd hx, passesFilter_eq_found st f j sd hx]
      have hmk : mkJobResponse st j
          = ⟨j, sd.status, (getKey st.progresses j).map (·.progress),
             (getKey st.progresses j).bind (·.message)⟩ := by
        simp [mkJobResponse, hx]
      by_cases hg : filterGuard f sd.status = true
      · simp only [hg, if_true]
        obtain ⟨ih1, ih2, ih3, ih4⟩ := ih
          (acc.1 ++ [⟨j, sd.status, (getKey st.progresses j).map (·.progress),
                      (getKey st.progresses j).bind (·.message)⟩],
           acc.2.1 + (if bucketActive sd.status then 1 else 0),
           acc.2.2.1 + (if sd.status = Status.completed then 1 else 0),
           acc.2.2.2 + (if sd.status = Status.failed then 1 else 0))
        refine ⟨?_, ?_, ?_, ?_⟩
        · rw [ih1]
          simp [hmk]
        · rw [ih2]
          simp only [List.map_cons, List.countP_cons, hmk]
          by_cases hb : bucketActive sd.status = true <;> simp [hb] <;> omega
        · rw [ih3]
          simp only [List.map_cons, List.countP_cons, hmk]
          by_cases hb : sd.status = Status.completed <;> simp [hb] <;> omega
        · rw [ih4]
          simp only [List.map_cons, List.countP_cons, hmk]
          by_cases hb : sd.status = Status.failed <;> simp [hb] <;> omega
      · simp only [Bool.not_eq_true] at hg
        simp only [hg, Bool.false_eq_true, if_false]
        exact ih acc

/-- Claim C10: on a connected store with distinct status keys, `GET /jobs`
returns `total_count` equal to the number of all jobs holding a status
key — independent of the status filter and of the limit/offset page —
while the returned rows are exactly the filtered page and the `active`,
`completed`, `failed` buckets are counted over those returned rows only
(so the buckets need not sum to `total_count`). -/
theorem c10_list_jobs_counts (st : JobStore) (f : Option Status) (limit offset : Nat)
    (hconn : st.connected = true)
    (hnd : (st.statuses.map Prod.fst).Nodup) :
    ∃ resp : JobListResponse,
      list_jobs st f limit offset = .ok resp
      ∧ resp.total_count = (st.statuses.map Prod.fst).length
      ∧ resp.jobs = (pageFiltered st f limit offset).map (mkJobResponse st)
      ∧ resp.active_count = resp.jobs.countP (fun r => bucketActive r.status)
      ∧ resp.completed_count = resp.jobs.countP (fun r => decide (r.status = Status.completed))
      ∧ resp.failed_count = resp.jobs.countP (fun r => decide (r.status = Status.failed)) := by
  obtain ⟨h1, h2, h3, h4⟩ := listStep_foldl_spec st f
    (((st.statuses.map Prod.fst).drop offset).take limit) ([], 0, 0, 0)
  have hrun : list_jobs st f limit offset = .ok
      { jobs := ((((st.statuses.map Prod.fst).drop offset).take limit).foldl
          (listStep st f) ([], 0, 0, 0)).1,
        total_count := (st.statuses.map Prod.fst).length,
        active_count := ((((st.statuses.map Prod.fst).drop offset).take limit).foldl
          (listStep st f) ([], 0, 0, 0)).2.1,
        completed_count := ((((st.statuses.map Prod.fst).drop offset).take limit).foldl
          (listStep st f) ([], 0, 0, 0)).2.2.1,
        failed_count := ((((st.statuses.map Prod.fst).drop offset).take limit).foldl
          (listStep st f) ([], 0, 0, 0)).2.2.2 } := by
    simp [list_jobs, get_active_jobs, hconn]
  refine ⟨_, hrun, rfl, ?_, ?_, ?_, ?_⟩
  · simpa [pageFiltered] using h1
  · simp only [h2, h1, List.nil_append, Nat.zero_add, pageFiltered]
  · simp only [h3, h1, List.nil_append, Nat.zero_add, pageFiltered]
  · simp only [h4, h1, List.nil_append, Nat.zero_add, pageFiltered]

/-- Witness for C10: a two-job store (one completed, one failed) listed
with filter `completed` and a one-element page reports `total_count = 2`
while the buckets only see the single filtered page row. -/
theorem c10_list_jobs_counts_witness :
    ∃ resp : JobListResponse,
      list_jobs ⟨true, [("a", ⟨Status.completed, 0, []⟩), ("b", ⟨Status.failed, 0, []⟩)], [], []⟩
          (some Status.completed) 1 0 = .ok resp
      ∧ resp.total_count
          = ((⟨true, [("a", ⟨Status.completed, 0, []⟩), ("b", ⟨Status.failed, 0, []⟩)],
              [], []⟩ : JobStore).statuses.map Prod.fst).length
      ∧ resp.jobs = (pageFiltered ⟨true, [("a", ⟨Status.completed, 0, []⟩),
              ("b", ⟨Status.failed, 0, []⟩)], [], []⟩ (some Status.completed) 1 0).map
            (mkJobResponse ⟨true, [("a", ⟨Status.completed, 0, []⟩),
              ("b", ⟨Status.failed, 0, []⟩)], [], []⟩)
      ∧ resp.active_count = resp.jobs.countP (fun r => bucketActive r.status)
      ∧ resp.completed_count = resp.jobs.countP (fun r => decide (r.status = Status.completed))
      ∧ resp.failed_count = resp.jobs.countP (fun r => decide (r.status = Status.failed)) :=
  c10_list_jobs_counts
    ⟨true, [("a", ⟨Status.completed, 0, []⟩), ("b", ⟨Status.failed, 0, []⟩)], [], []⟩
    (some Status.completed) 1 0 rfl (by decide)
